import Mathlib

/-
  Verification development for the tramvai server error handler
  (src/packages/modules/server/src/server/error.ts).

  The handler registered by `errorHandler` is embedded as a pure Lean
  function over an explicit environment of collaborators (hook chains,
  logger sink modelled as an emitted trace, webpack-stats fetcher,
  React renderer, URL parser and safe serializers).  Machine-level JS
  semantics that matter to the claims are modelled explicitly:
  truthiness (`if (result)`), nil checks (`isNil`), `x || dflt`
  defaulting, `x >= n` comparisons against possibly-undefined fields,
  and `String.prototype.replace` replacing only the first occurrence.
-/

namespace Tramvai

/-- A JavaScript value, as far as hook results and truthiness are
concerned.  `obj id` stands for any object-like value (always truthy). -/
inductive JsVal where
  | undef
  | null
  | bool (b : Bool)
  | num (n : Int)
  | str (s : String)
  | obj (id : Nat)
deriving DecidableEq

/-- JS truthiness: `undefined`, `null`, `false`, `0`, `""` are falsy. -/
def truthy : JsVal → Bool
  | JsVal.undef => false
  | JsVal.null => false
  | JsVal.bool b => b
  | JsVal.num n => n != 0
  | JsVal.str s => s != ""
  | JsVal.obj _ => true

/-- `isNil` from tinkoff-utils: `null` or `undefined`. -/
def isNil : JsVal → Bool
  | JsVal.undef => true
  | JsVal.null => true
  | _ => false

/-- JS `x || dflt` on a possibly-undefined numeric field: a present,
non-zero value wins, everything falsy falls through to the default. -/
def jsOr (v : Option Int) (dflt : Int) : Int :=
  match v with
  | none => dflt
  | some n => if n != 0 then n else dflt

/-- JS `x >= bound` on a possibly-undefined numeric field: comparing
`undefined` is `NaN >= bound`, which is false. -/
def jsGe (v : Option Int) (bound : Int) : Bool :=
  match v with
  | none => false
  | some n => bound ≤ n

/-- The error object caught by the handler (error.ts line 32).  The
tags model the `isRedirectFoundError` / `isNotFoundError` /
`isHttpError` predicates applied to the error. -/
structure CaughtError where
  redirectTag : Bool
  notFoundTag : Bool
  httpTag : Bool
  httpStatus : Option Int
  statusCode : Option Int
  code : Option String
  message : String
  stack : String
  nextUrl : String
deriving DecidableEq

/-- The request snapshot the handler reads (`request.ip`,
`request.headers['x-request-id']`, `request.url`). -/
structure Request where
  ip : String
  requestId : Option String
  url : String
deriving DecidableEq

/-- Result of the classification cascade (error.ts lines 84-137). -/
structure Classification where
  httpStatus : Int
  logLevel : String
  logEvent : String
  logMessage : String
deriving DecidableEq

/-- The serializable subset of the error sent to the client
(error.ts lines 166-170). -/
structure SerializedError where
  status : Int
  message : String
  stack : String
deriving DecidableEq

/-- One structured record handed to the logger. -/
structure LogRecord where
  level : String
  event : String
  message : String
deriving DecidableEq

/-- Observable side effects of one handler invocation: emitted log
records (in order), headers set on the reply, the status code set via
`reply.status`, how many hooks of each chain ran, and whether the
fallback render was attempted. -/
structure Trace where
  logs : List LogRecord
  headers : List (String × String)
  status : Option Int
  beforeInvoked : Nat
  afterInvoked : Nat
  fallbackAttempted : Bool
deriving DecidableEq

/-- The exception escaping the handler: the original caught error
rethrown by `throw error` (line 209), or the TypeError raised by
`error.code.toLowerCase()` on an undefined `code` (lines 121/129). -/
inductive ThrownError where
  | original
  | typeError
deriving DecidableEq

/-- Terminal outcome of one handler invocation. -/
inductive Outcome where
  | body (s : String)
  | hookResult (v : JsVal)
  | redirect (status : Int) (url : String)
  | thrown (e : ThrownError)
deriving DecidableEq

/-- The collaborators supplied to the handler.  Hook chains are given
by the (awaited) result each registered hook produces for this fixed
(error, request, reply) triple; `none` models an absent chain.
`rootErrorBoundary` is the result of the guarded `require` (lines
60-68): `none` when resolution failed.  The remaining fields model
`fetchWebpackStats`, `ChunkExtractor` tag collection, `parse` and
`safeStringify`; `Except.error` models a thrown exception. -/
structure Env where
  beforeError : Option (List JsVal)
  afterError : Option (List JsVal)
  rootErrorBoundary : Option Nat
  fetchWebpackStats : Except String Nat
  extractTags : Nat → Except String (String × String)
  parse : String → String
  renderToString : Nat → SerializedError → String → Except String String
  safeStringifyUrl : String → String
  safeStringifyStr : String → String
  safeStringifyErr : SerializedError → String

/-- `runHandlers` loop body (error.ts lines 37-43): invoke hooks in
order, return the first truthy result (`if (result) return result`).
Also counts how many hooks were invoked. -/
def runHandlersList : List JsVal → JsVal × Nat
  | [] => (JsVal.undef, 0)
  | r :: rs =>
    if truthy r then (r, 1)
    else
      let p := runHandlersList rs
      (p.1, p.2 + 1)

/-- `runHandlers` (error.ts lines 33-45): skip entirely when the chain
is absent (`if (handlers)`), otherwise run the loop; falling off the
loop returns `undefined`. -/
def runHandlers : Option (List JsVal) → JsVal × Nat
  | none => (JsVal.undef, 0)
  | some hs => runHandlersList hs

/-- Per-character lowercasing, modelling `String.prototype.toLowerCase`
on the ASCII error codes it is applied to. -/
def toLowerCase (s : String) : String :=
  ⟨s.data.map Char.toLower⟩

/-- Message template of the redirect branch (lines 73-74). -/
def redirectMessage (error : CaughtError) : String :=
  "RedirectFoundError, redirect to " ++ error.nextUrl ++ ", action execution will be aborted.\nMore information about redirects - https://tramvai.dev/docs/features/routing/redirects"

/-- Message template of the not-found branch (lines 94-95). -/
def notFoundMessage : String :=
  "NotFoundError, action execution will be aborted.\nNot Found page is common use-case with this error - https://tramvai.dev/docs/features/routing/wildcard-routes/#not-found-page"

/-- Message template of the http-error branch, status >= 500
(lines 102-104). -/
def httpServerErrorMessage : String :=
  "This is expected server error, here is most common cases:\n- Router Guard blocked request - https://tramvai.dev/docs/features/routing/hooks-and-guards#guards\n- Forced Page Error Boundary render with 5xx code in Guard or Action - https://tramvai.dev/docs/features/error-boundaries#force-render-page-error-boundary-in-action"

/-- Message template of the http-error branch, status below 500
(lines 108-111). -/
def httpClientErrorMessage : String :=
  "This is expected server error, here is most common cases:\n  - Route is not found - https://tramvai.dev/docs/features/routing/flow#server-navigation\n  - Forced Page Error Boundary render with 4xx code in Guard or Action - https://tramvai.dev/docs/features/error-boundaries#force-render-page-error-boundary-in-action\n  - Request Limiter blocked request with 429 code - https://tramvai.dev/docs/references/modules/request-limiter/"

/-- Message template of the generic branch, statusCode >= 500
(lines 119-121).  Building it dereferences `error.code.toLowerCase()`. -/
def fastifyServerErrorMessage (code : String) : String :=
  "This is Fastify 5xx error, you can check " ++ code ++ " code in https://www.fastify.io/docs/latest/Reference/Errors/#" ++ toLowerCase code ++ " page"

/-- Message template of the generic branch, 400 <= statusCode < 500
(lines 127-129).  Building it dereferences `error.code.toLowerCase()`. -/
def fastifyClientErrorMessage (code : String) : String :=
  "This is Fastify 4xx error, you can check " ++ code ++ " code in https://www.fastify.io/docs/latest/Reference/Errors/#" ++ toLowerCase code ++ " page"

/-- Message template of the generic catch-all branch (lines 133-135). -/
def unexpectedErrorMessage : String :=
  "Unexpected server error. Error cause will be in \"error\" parameter.\n  Most likely an error has occurred in the rendering of the current React page component\n  You can try to find relative logs by using \"x-request-id\" header"

/-- The classification cascade (error.ts lines 89-137), for errors that
are not redirects.  `Except.error ()` models the TypeError raised when
a generic error with `statusCode >= 400` has an undefined `code`
(`error.code.toLowerCase()` at lines 121/129); the cascade throws
before any classification record exists. -/
def classify (error : CaughtError) : Except Unit Classification :=
  if error.notFoundTag then
    Except.ok ⟨jsOr error.httpStatus 404, "info", "not-found-error", notFoundMessage⟩
  else if error.httpTag then
    if jsGe error.httpStatus 500 then
      Except.ok ⟨jsOr error.httpStatus 500, "error", "send-server-error", httpServerErrorMessage⟩
    else
      Except.ok ⟨jsOr error.httpStatus 500, "info", "http-error", httpClientErrorMessage⟩
  else
    if jsGe error.statusCode 500 then
      match error.code with
      | none => Except.error ()
      | some c =>
        Except.ok ⟨jsOr error.statusCode 500, "error", "send-server-error", fastifyServerErrorMessage c⟩
    else if jsGe error.statusCode 400 then
      match error.code with
      | none => Except.error ()
      | some c =>
        Except.ok ⟨jsOr error.statusCode 500, "info", "fastify-error-4xx", fastifyClientErrorMessage c⟩
    else
      Except.ok ⟨jsOr error.statusCode 500, "error", "send-server-error", unexpectedErrorMessage⟩

/-- Augmentation of the classified message (lines 139-144), depending
on whether the root error boundary component resolved; the source
template ends with a stray apostrophe, reproduced here. -/
def augmentMessage (logMessage : String) (rootErrorBoundary : Option Nat) : String :=
  logMessage ++ "\n" ++
    (match rootErrorBoundary with
     | some _ => "Root Error Boundary will be rendered for the client"
     | none => "You can add Error Boundary for better UX - https://tramvai.dev/docs/features/error-boundaries") ++
    "\x27"

/-- GetSubstitution of the ECMAScript spec, as it applies to
`String.prototype.replace(searchString, replacementString)`: in the
replacement, `$$` yields a dollar, `$&` the matched text, a dollar
followed by a backquote the text before the match, and a dollar
followed by a quote the text after the match; any other dollar (and,
with no capture groups, `$n` and `$<`) stays literal. -/
def substChars (matched before after : List Char) : List Char → List Char
  | [] => []
  | [c] => [c]
  | c :: d :: rest =>
    if c = '$' then
      if d = '$' then '$' :: substChars matched before after rest
      else if d = '&' then matched ++ substChars matched before after rest
      else if d = Char.ofNat 96 then before ++ substChars matched before after rest
      else if d = Char.ofNat 39 then after ++ substChars matched before after rest
      else c :: substChars matched before after (d :: rest)
    else c :: substChars matched before after (d :: rest)

/-- Locate the first occurrence of `pat` (assumed non-empty): returns
the text before and after the match, or `none` when absent. -/
def findFirst (pat : List Char) : List Char → Option (List Char × List Char)
  | [] => none
  | c :: cs =>
    if pat.isPrefixOf (c :: cs) then some ([], (c :: cs).drop pat.length)
    else
      match findFirst pat cs with
      | none => none
      | some (b, a) => some (c :: b, a)

/-- Replace the first occurrence of `pat` in a character list, like
`String.prototype.replace(searchString, replacementString)`,
including the dollar-pattern substitution applied to the replacement
text. -/
def replaceFirstChars (pat repl l : List Char) : List Char :=
  match findFirst pat l with
  | none => l
  | some (b, a) => b ++ substChars pat b a repl ++ a

/-- String front-end of `replaceFirstChars`. -/
def replaceFirst (s pat repl : String) : String :=
  ⟨replaceFirstChars pat.data repl.data s.data⟩

/-- JS `Array.prototype.join(sep)`. -/
def joinList (sep : String) : List String → String
  | [] => ""
  | [x] => x
  | x :: y :: xs => x ++ sep ++ joinList sep (y :: xs)

/-- The inline `<script>` block injected before `</head>`
(lines 177-181). -/
def injectionScript (env : Env) (url : String) (serializedError : SerializedError) : String :=
  "<script>" ++
    "window.serverUrl = " ++ env.safeStringifyUrl url ++ ";" ++
    "window.serverError = new Error(" ++ env.safeStringifyStr serializedError.message ++ ");" ++
    "Object.assign(window.serverError, " ++ env.safeStringifyErr serializedError ++ ");" ++
    "</script>"

/-- The replacement text for `</head>` (lines 175-188): script block,
style tags, script tags and the closing tag, with falsy (empty)
entries filtered out and the rest joined by newlines. -/
def headInjection (script styleTags scriptTags : String) : String :=
  joinList "\n" (([script, styleTags, scriptTags, "</head>"]).filter (fun s => !(s == "")))

/-- The final markup returned on fallback success (lines 172-188):
the rendered component markup with the script and asset tags injected
at the first occurrence of the closing head tag. -/
def fallbackBody (env : Env) (httpStatus : Int) (error : CaughtError)
    (reqUrl : String) (tags : String × String) (markup : String) : String :=
  replaceFirst markup "</head>"
    (headInjection
      (injectionScript env (env.parse reqUrl) ⟨httpStatus, error.message, error.stack⟩)
      tags.1 tags.2)

/-- Body of the `try` block of the fallback render (lines 162-188):
fetch the webpack stats, build the chunk extractor tags, parse the
request URL, build the serialized error and render the component,
then inject the script and asset tags before the closing head tag.
`Except.error` models any step throwing. -/
def attemptFallback (env : Env) (comp : Nat) (httpStatus : Int) (error : CaughtError)
    (reqUrl : String) : Except String String := do
  let stats ← env.fetchWebpackStats
  let tags ← env.extractTags stats
  let markup ← env.renderToString comp ⟨httpStatus, error.message, error.stack⟩ (env.parse reqUrl)
  Except.ok (fallbackBody env httpStatus error reqUrl tags markup)

/-- Stage of the handler after a successful classification (error.ts
lines 139-209): augment and emit the classification log, run the
after-hooks, set the reply status, attempt the fallback render when
the boundary component resolved, otherwise rethrow the original
error. -/
def errorHandlerRespond (env : Env) (error : CaughtError) (request : Request)
    (beforeN : Nat) (cls : Classification) : Outcome × Trace :=
  let classLog : LogRecord :=
    ⟨cls.logLevel, cls.logEvent, augmentMessage cls.logMessage env.rootErrorBoundary⟩
  if isNil (runHandlers env.afterError).1 then
    match env.rootErrorBoundary with
    | none =>
      (Outcome.thrown ThrownError.original,
       { logs := [classLog], headers := [], status := some cls.httpStatus,
         beforeInvoked := beforeN, afterInvoked := (runHandlers env.afterError).2,
         fallbackAttempted := false })
    | some comp =>
      match attemptFallback env comp cls.httpStatus error request.url with
      | Except.ok body =>
        (Outcome.body body,
         { logs := [classLog,
              ⟨"info", "render-root-error-boundary", "Render Root Error Boundary for the client"⟩],
           headers := [("Content-Type", "text/html; charset=utf-8"),
                       ("Content-Length", toString body.utf8ByteSize),
                       ("Cache-Control", "no-store, no-cache, must-revalidate")],
           status := some cls.httpStatus,
           beforeInvoked := beforeN, afterInvoked := (runHandlers env.afterError).2,
           fallbackAttempted := true })
      | Except.error _ =>
        (Outcome.thrown ThrownError.original,
         { logs := [classLog,
              ⟨"warn", "failed-root-error-boundary", "Root Error Boundary rendering failed"⟩],
           headers := [], status := some cls.httpStatus,
           beforeInvoked := beforeN, afterInvoked := (runHandlers env.afterError).2,
           fallbackAttempted := true })
  else
    (Outcome.hookResult (runHandlers env.afterError).1,
     { logs := [classLog], headers := [], status := none,
       beforeInvoked := beforeN, afterInvoked := (runHandlers env.afterError).2,
       fallbackAttempted := false })

/-- Stage of the handler after the before-hooks declined (error.ts
lines 53-137): the redirect short-circuit, then the classification
cascade; a classification TypeError escapes before any log record. -/
def errorHandlerCore (env : Env) (error : CaughtError) (request : Request)
    (beforeN : Nat) : Outcome × Trace :=
  if error.redirectTag then
    (Outcome.redirect (jsOr error.httpStatus 307) error.nextUrl,
     { logs := [⟨"info", "redirect-found-error", redirectMessage error⟩],
       headers := [("cache-control", "no-store, no-cache, must-revalidate")],
       status := none, beforeInvoked := beforeN, afterInvoked := 0,
       fallbackAttempted := false })
  else
    match classify error with
    | Except.error _ =>
      (Outcome.thrown ThrownError.typeError,
       { logs := [], headers := [], status := none,
         beforeInvoked := beforeN, afterInvoked := 0, fallbackAttempted := false })
    | Except.ok cls => errorHandlerRespond env error request beforeN cls

/-- The registered error handler (error.ts lines 32-210): run the
before-hooks, short-circuit on a non-nil chain result, otherwise
continue with the core stages. -/
def errorHandler (env : Env) (error : CaughtError) (request : Request) : Outcome × Trace :=
  if isNil (runHandlers env.beforeError).1 then
    errorHandlerCore env error request (runHandlers env.beforeError).2
  else
    (Outcome.hookResult (runHandlers env.beforeError).1,
     { logs := [], headers := [], status := none,
       beforeInvoked := (runHandlers env.beforeError).2, afterInvoked := 0,
       fallbackAttempted := false })

/-- An outcome that answers the request: a body, a hook result, or a
redirect. -/
def isResponse : Outcome → Bool
  | Outcome.body _ => true
  | Outcome.hookResult _ => true
  | Outcome.redirect _ _ => true
  | Outcome.thrown _ => false

/-- An outcome that propagates an exception. -/
def isThrow : Outcome → Bool
  | Outcome.thrown _ => true
  | _ => false

/-- The log event names the code actually emits. -/
def emittedEventVocabulary : List String :=
  ["redirect-found-error", "not-found-error", "http-error", "send-server-error",
   "fastify-error-4xx", "render-root-error-boundary", "failed-root-error-boundary"]

/-- Modelled from the spec: the event vocabulary the specification
claims is emitted verbatim (spec section 6). -/
def claimedEventVocabulary : List String :=
  ["redirect-found-error", "not-found-error", "http-error", "send-server-error",
   "generic-error-4xx", "render-fallback", "failed-fallback-render"]

/-- `pat` occurs contiguously inside `s`. -/
def strContains (s pat : String) : Prop :=
  pat.data <:+: s.data

instance (s pat : String) : Decidable (strContains s pat) := by
  unfold strContains
  infer_instance

/-- A truthy JS value is never nil. -/
theorem truthy_not_nil (v : JsVal) (hv : truthy v = true) : isNil v = false := by
  cases v <;> simp_all [truthy, isNil]

/-- The hook loop returns the first truthy result, having invoked
exactly the hooks up to and including it. -/
theorem runHandlersList_first_truthy (pre : List JsVal) (v : JsVal) (post : List JsVal)
    (hpre : ∀ x ∈ pre, truthy x = false) (hv : truthy v = true) :
    runHandlersList (pre ++ v :: post) = (v, pre.length + 1) := by
  induction pre with
  | nil => simp [runHandlersList, hv]
  | cons x xs ih =>
    have hx : truthy x = false := hpre x (by simp)
    have ih' := ih (fun y hy => hpre y (by simp [hy]))
    simp [runHandlersList, hx, ih']

/-- A hook loop whose every result is falsy returns `undefined` after
invoking all hooks. -/
theorem runHandlersList_all_falsy (hs : List JsVal)
    (h : ∀ x ∈ hs, truthy x = false) :
    runHandlersList hs = (JsVal.undef, hs.length) := by
  induction hs with
  | nil => simp [runHandlersList]
  | cons x xs ih =>
    have hx : truthy x = false := h x (by simp)
    simp [runHandlersList, hx, ih (fun y hy => h y (by simp [hy]))]

/-- Every classification the cascade produces uses an event from the
code's actual vocabulary. -/
theorem classify_ok_event_mem (e : CaughtError) (cls : Classification)
    (h : classify e = Except.ok cls) : cls.logEvent ∈ emittedEventVocabulary := by
  unfold classify at h
  split at h
  · cases h; simp [emittedEventVocabulary]
  · split at h
    · split at h <;> (cases h; simp [emittedEventVocabulary])
    · split at h
      · split at h
        · cases h
        · cases h; simp [emittedEventVocabulary]
      · split at h
        · split at h
          · cases h
          · cases h; simp [emittedEventVocabulary]
        · cases h; simp [emittedEventVocabulary]

/-- A generic error with `statusCode >= 400` and an undefined `code`
makes the classification cascade throw (the TypeError of
`error.code.toLowerCase()`). -/
theorem classify_code_none (e : CaughtError) (hn : e.notFoundTag = false)
    (hh : e.httpTag = false) (hs : jsGe e.statusCode 400 = true) (hc : e.code = none) :
    classify e = Except.error () := by
  unfold classify
  rw [hn, hh, hc, hs]
  simp only [Bool.false_eq_true, if_false, if_true]
  split <;> rfl

/-- Dollar-pattern substitution is the identity on replacement text
containing no dollar character. -/
theorem substChars_no_dollar (m b a : List Char) :
    ∀ l : List Char, ('$' : Char) ∉ l → substChars m b a l = l := by
  intro l
  induction l with
  | nil => intro _; rfl
  | cons c cs ih =>
    intro h
    have hc : c ≠ '$' := fun e => h (e ▸ List.mem_cons_self c cs)
    cases cs with
    | nil => rfl
    | cons d rest =>
      have htail : substChars m b a (d :: rest) = d :: rest :=
        ih (fun hm => h (List.mem_cons_of_mem c hm))
      show substChars m b a (c :: d :: rest) = c :: d :: rest
      rw [substChars, if_neg hc, htail]

/-- If a non-empty pattern occurs in the subject, `findFirst` finds a
decomposition around its first occurrence. -/
theorem findFirst_of_infix (pat : List Char) (l : List Char)
    (hpat : pat ≠ []) (hocc : pat <:+: l) :
    ∃ b a, findFirst pat l = some (b, a) := by
  induction l with
  | nil => exact absurd (List.eq_nil_of_infix_nil hocc) hpat
  | cons c cs ih =>
    by_cases hpre : pat.isPrefixOf (c :: cs)
    · exact ⟨[], _, by rw [findFirst, if_pos hpre]⟩
    · have hocc' : pat <:+: cs := by
        rcases List.infix_cons_iff.mp hocc with hp | hi
        · exact absurd (List.isPrefixOf_iff_prefix.mpr hp) hpre
        · exact hi
      obtain ⟨b, a, hba⟩ := ih hocc'
      exact ⟨c :: b, a, by rw [findFirst, if_neg hpre, hba]⟩

/-- If the pattern occurs in the subject and the replacement text is
dollar-free (so dollar-pattern substitution leaves it untouched), the
replacement occurs in the output of first-occurrence replacement. -/
theorem repl_infix_replaceFirstChars (pat repl : List Char) (l : List Char)
    (hpat : pat ≠ []) (hocc : pat <:+: l) (hd : ('$' : Char) ∉ repl) :
    repl <:+: replaceFirstChars pat repl l := by
  obtain ⟨b, a, hba⟩ := findFirst_of_infix pat l hpat hocc
  unfold replaceFirstChars
  rw [hba]
  show repl <:+: b ++ substChars pat b a repl ++ a
  rw [substChars_no_dollar pat b a repl hd]
  exact ⟨b, a, rfl⟩

/-- `joinList` puts the head first when the tail is non-empty. -/
theorem joinList_cons (sep x : String) (xs : List String) (hxs : xs ≠ []) :
    joinList sep (x :: xs) = x ++ sep ++ joinList sep xs := by
  cases xs with
  | nil => exact absurd rfl hxs
  | cons y ys => rfl

/-- The injection script block is never the empty string. -/
theorem injectionScript_ne_empty (env : Env) (url : String) (se : SerializedError) :
    (injectionScript env url se == "") = false := by
  apply beq_eq_false_iff_ne.mpr
  intro h
  have : (injectionScript env url se).data = [] := by rw [h]
  rw [injectionScript] at this
  simp only [String.data_append] at this
  simp at this

/-- The injection script is a prefix-part of the head injection, so it
occurs in it. -/
theorem script_infix_headInjection (script styleTags scriptTags : String)
    (hscript : (script == "") = false) :
    script.data <:+: (headInjection script styleTags scriptTags).data := by
  unfold headInjection
  rw [List.filter_cons_of_pos (by simp [hscript])]
  have hmem : "</head>" ∈ ([styleTags, scriptTags, "</head>"].filter (fun s => !(s == ""))) := by
    apply List.mem_filter.mpr
    exact ⟨by simp, by decide⟩
  rw [joinList_cons _ _ _ (List.ne_nil_of_mem hmem)]
  simp only [String.data_append]
  exact ⟨[], "\n".data ++
    (joinList "\n" (List.filter (fun s => !(s == "")) [styleTags, scriptTags, "</head>"])).data,
    by simp⟩

/-- The serialized message occurs in the injection script. -/
theorem message_infix_injectionScript (env : Env) (url : String) (se : SerializedError) :
    (env.safeStringifyStr se.message).data <:+: (injectionScript env url se).data := by
  unfold injectionScript
  refine ⟨("<script>" ++ "window.serverUrl = " ++ env.safeStringifyUrl url ++ ";" ++
    "window.serverError = new Error(").data,
    (");" ++ "Object.assign(window.serverError, " ++ env.safeStringifyErr se ++ ");" ++
    "</script>").data, ?_⟩
  simp only [String.data_append, List.append_assoc]

/-- The serialized URL occurs in the injection script. -/
theorem url_infix_injectionScript (env : Env) (url : String) (se : SerializedError) :
    (env.safeStringifyUrl url).data <:+: (injectionScript env url se).data := by
  unfold injectionScript
  refine ⟨("<script>" ++ "window.serverUrl = ").data,
    (";" ++ "window.serverError = new Error(" ++ env.safeStringifyStr se.message ++ ");" ++
    "Object.assign(window.serverError, " ++ env.safeStringifyErr se ++ ");" ++
    "</script>").data, ?_⟩
  simp only [String.data_append, List.append_assoc]

/-- Anything occurring in the injection script occurs in the final
fallback body, provided the markup has a closing head tag and the
replacement text is dollar-free. -/
theorem infix_fallbackBody (env : Env) (httpStatus : Int) (error : CaughtError)
    (reqUrl : String) (tags : String × String) (markup : String) (piece : String)
    (hhead : strContains markup "</head>")
    (hdollar : ('$' : Char) ∉
      (headInjection
        (injectionScript env (env.parse reqUrl) ⟨httpStatus, error.message, error.stack⟩)
        tags.1 tags.2).data)
    (hpiece : piece.data <:+:
      (injectionScript env (env.parse reqUrl) ⟨httpStatus, error.message, error.stack⟩).data) :
    strContains (fallbackBody env httpStatus error reqUrl tags markup) piece := by
  have h1 := script_infix_headInjection
    (injectionScript env (env.parse reqUrl) ⟨httpStatus, error.message, error.stack⟩)
    tags.1 tags.2 (injectionScript_ne_empty env _ _)
  have h2 := repl_infix_replaceFirstChars "</head>".data
    (headInjection
      (injectionScript env (env.parse reqUrl) ⟨httpStatus, error.message, error.stack⟩)
      tags.1 tags.2).data
    markup.data (by decide) hhead hdollar
  exact (hpiece.trans h1).trans h2

/-
  Concrete fixtures used by witnesses and counterexamples.
-/

/-- Environment with no hooks, no resolved boundary component and
failing render collaborators. -/
def envPlain : Env :=
  { beforeError := none, afterError := none, rootErrorBoundary := none,
    fetchWebpackStats := Except.error "stats fetch failed",
    extractTags := fun _ => Except.ok ("", ""),
    parse := id,
    renderToString := fun _ _ _ => Except.error "render failed",
    safeStringifyUrl := id, safeStringifyStr := id,
    safeStringifyErr := fun _ => "" }

/-- A plain request. -/
def reqPage : Request := { ip := "127.0.0.1", requestId := none, url := "/page" }

/-- A not-found-tagged error with no declared status. -/
def errNotFound : CaughtError :=
  { redirectTag := false, notFoundTag := true, httpTag := false,
    httpStatus := none, statusCode := none, code := none,
    message := "nf", stack := "st", nextUrl := "" }

/-- A generic Fastify error with statusCode 415 and a symbolic code. -/
def errFastify415 : CaughtError :=
  { redirectTag := false, notFoundTag := false, httpTag := false,
    httpStatus := none, statusCode := some 415,
    code := some "FST_ERR_CTP_INVALID_MEDIA_TYPE",
    message := "unsupported media type", stack := "st", nextUrl := "" }

/-- A generic Fastify error with statusCode 404 and a symbolic code. -/
def errFastify404 : CaughtError :=
  { redirectTag := false, notFoundTag := false, httpTag := false,
    httpStatus := none, statusCode := some 404, code := some "FST_ERR_NOT_FOUND",
    message := "not found", stack := "st", nextUrl := "" }

/-- A generic error with statusCode 502 and no symbolic code. -/
def errFastifyNoCode : CaughtError :=
  { redirectTag := false, notFoundTag := false, httpTag := false,
    httpStatus := none, statusCode := some 502, code := none,
    message := "bad gateway", stack := "st", nextUrl := "" }

/-- A domain http-tagged error with no declared status. -/
def errHttpNoStatus : CaughtError :=
  { redirectTag := false, notFoundTag := false, httpTag := true,
    httpStatus := none, statusCode := none, code := none,
    message := "guard", stack := "st", nextUrl := "" }

/-- A domain http-tagged error with declared status 503. -/
def errHttp503 : CaughtError :=
  { redirectTag := false, notFoundTag := false, httpTag := true,
    httpStatus := some 503, statusCode := none, code := none,
    message := "unavailable", stack := "st", nextUrl := "" }

/-- A domain http-tagged error with declared status 404. -/
def errHttp404 : CaughtError :=
  { redirectTag := false, notFoundTag := false, httpTag := true,
    httpStatus := some 404, statusCode := none, code := none,
    message := "blocked", stack := "st", nextUrl := "" }

/-- A redirect-tagged error with no declared status. -/
def errRedirect : CaughtError :=
  { redirectTag := true, notFoundTag := false, httpTag := false,
    httpStatus := none, statusCode := none, code := none,
    message := "redirect", stack := "st", nextUrl := "/login" }

/-- Environment whose single before-hook returns the defined but falsy
value 0. -/
def envBeforeZero : Env :=
  { envPlain with beforeError := some [JsVal.num 0] }

/-- Environment whose before-hooks return 0 then the truthy "hi". -/
def envBeforeTruthy : Env :=
  { envPlain with beforeError := some [JsVal.num 0, JsVal.str "hi"] }

/-- Environment with a resolved boundary component whose fallback
render fails at the stats fetch. -/
def envFallbackFail : Env :=
  { envPlain with rootErrorBoundary := some 0 }

/-- Environment with a resolved boundary component and a successful
fallback render producing markup with a closing head tag. -/
def envFallbackOk : Env :=
  { envPlain with
    rootErrorBoundary := some 0,
    fetchWebpackStats := Except.ok 0,
    renderToString := fun _ _ _ => Except.ok "<html><head></head><body>x</body></html>" }

/-
  C1
-/

/-- C1: every handler invocation performs exactly one terminal
outcome: it returns a response (a body, a hook result, or a redirect)
or it propagates an exception - never neither and never both. -/
theorem errorHandler_exactly_one_terminal (env : Env) (error : CaughtError) (request : Request) :
    (isResponse (errorHandler env error request).1 || isThrow (errorHandler env error request).1) = true
    ∧ (isResponse (errorHandler env error request).1 && isThrow (errorHandler env error request).1) = false := by
  generalize (errorHandler env error request).1 = o
  cases o <;> simp [isResponse, isThrow]

/-
  C2
-/

/-- C2 (amended): every log event the handler emits is one of
redirect-found-error, not-found-error, http-error, send-server-error,
fastify-error-4xx, render-root-error-boundary,
failed-root-error-boundary. -/
theorem errorHandler_events_in_emitted_vocabulary (env : Env) (error : CaughtError)
    (request : Request) :
    ∀ rec ∈ (errorHandler env error request).2.logs, rec.event ∈ emittedEventVocabulary := by
  intro rec hrec
  unfold errorHandler at hrec
  split at hrec
  case isTrue =>
    unfold errorHandlerCore at hrec
    split at hrec
    case isTrue =>
      simp at hrec
      simp [hrec, emittedEventVocabulary]
    case isFalse =>
      rcases hcls : classify error with e | cls <;> simp only [hcls] at hrec
      · simp at hrec
      · unfold errorHandlerRespond at hrec
        have hev := classify_ok_event_mem error cls hcls
        split at hrec
        · split at hrec
          · simp at hrec
            simp only [hrec]
            simpa [emittedEventVocabulary] using hev
          · split at hrec <;>
              (simp at hrec
               rcases hrec with h | h
               · simp only [h]
                 simpa [emittedEventVocabulary] using hev
               · simp [h, emittedEventVocabulary])
        · simp at hrec
          simp only [hrec]
          simpa [emittedEventVocabulary] using hev
  case isFalse =>
    simp at hrec

/-- C2 counterexample: a generic 415 error makes the handler emit the
event fastify-error-4xx, which is not in the vocabulary the claim
fixes (the claim has generic-error-4xx instead). -/
theorem errorHandler_emits_event_outside_claimed_vocabulary :
    (errorHandler envPlain errFastify415 reqPage).2.logs.map LogRecord.event = ["fastify-error-4xx"]
    ∧ "fastify-error-4xx" ∉ claimedEventVocabulary :=
  ⟨rfl, by decide⟩

set_option maxRecDepth 8192 in
/-- C2 witness: the not-found record emitted in a concrete run is in
the emitted vocabulary. -/
theorem errorHandler_events_in_emitted_vocabulary_witness :
    LogRecord.event ⟨"info", "not-found-error", augmentMessage notFoundMessage none⟩
      ∈ emittedEventVocabulary :=
  errorHandler_events_in_emitted_vocabulary envPlain errNotFound reqPage
    ⟨"info", "not-found-error", augmentMessage notFoundMessage none⟩ (by decide)

/-
  C3
-/

/-- C3 (amended): for a non-empty hook list the chain runner invokes
hooks in registration order and stops at the first hook whose result
is truthy: that result is returned and no later hook is invoked; a
falsy but defined result (false, 0, the empty string) does not stop
the chain. -/
theorem runHandlers_stops_at_first_truthy (pre : List JsVal) (v : JsVal) (post : List JsVal)
    (hpre : ∀ x ∈ pre, truthy x = false) (hv : truthy v = true) :
    runHandlers (some (pre ++ v :: post)) = (v, pre.length + 1) :=
  runHandlersList_first_truthy pre v post hpre hv

/-- C3 counterexample: the first hook returns false - a defined,
non-nil value - yet the chain continues, invokes the second hook and
returns its 42. -/
theorem runHandlers_defined_falsy_not_terminal :
    runHandlers (some [JsVal.bool false, JsVal.num 42]) = (JsVal.num 42, 2)
    ∧ isNil (JsVal.bool false) = false := by
  constructor
  · rfl
  · rfl

/-- C3 witness. -/
theorem runHandlers_stops_at_first_truthy_witness :
    runHandlers (some ([JsVal.num 0] ++ JsVal.str "ok" :: [JsVal.num 7]))
      = (JsVal.str "ok", [JsVal.num 0].length + 1) :=
  runHandlers_stops_at_first_truthy [JsVal.num 0] (JsVal.str "ok") [JsVal.num 7]
    (by decide) (by decide)

/-
  C4
-/

/-- C4: for a caught error that is not redirect, not-found or http
tagged, whose statusCode is at least 400 and whose code is undefined,
the handler itself throws a TypeError while building the diagnostic
message: no classification log record is emitted and the propagated
exception is the TypeError, not the original caught error. -/
theorem errorHandler_undefined_code_throws_type_error (env : Env) (error : CaughtError)
    (request : Request)
    (hb : isNil (runHandlers env.beforeError).1 = true)
    (hr : error.redirectTag = false) (hn : error.notFoundTag = false)
    (hh : error.httpTag = false)
    (hs : jsGe error.statusCode 400 = true) (hc : error.code = none) :
    (errorHandler env error request).1 = Outcome.thrown ThrownError.typeError
    ∧ (errorHandler env error request).2.logs = [] := by
  have hcls := classify_code_none error hn hh hs hc
  unfold errorHandler errorHandlerCore
  rw [hb, hr, hcls]
  simp

/-- C4 witness: a generic 502 error with undefined code. -/
theorem errorHandler_undefined_code_throws_type_error_witness :
    (errorHandler envPlain errFastifyNoCode reqPage).1 = Outcome.thrown ThrownError.typeError
    ∧ (errorHandler envPlain errFastifyNoCode reqPage).2.logs = [] :=
  errorHandler_undefined_code_throws_type_error envPlain errFastifyNoCode reqPage
    (by decide) rfl rfl rfl (by decide) rfl

/-
  C5
-/

/-- C5 (amended): whenever the fallback render is attempted and any
step of it throws, the failure is caught locally, a warning with event
failed-root-error-boundary is logged after the classification record,
and the original caught error - not the render failure - is what
propagates out of the handler. -/
theorem errorHandler_fallback_failure_logs_and_rethrows (env : Env) (error : CaughtError)
    (request : Request) (cls : Classification) (comp : Nat) (msg : String)
    (hb : isNil (runHandlers env.beforeError).1 = true)
    (hr : error.redirectTag = false)
    (hcls : classify error = Except.ok cls)
    (ha : isNil (runHandlers env.afterError).1 = true)
    (hroot : env.rootErrorBoundary = some comp)
    (hfail : attemptFallback env comp cls.httpStatus error request.url = Except.error msg) :
    (errorHandler env error request).1 = Outcome.thrown ThrownError.original
    ∧ (errorHandler env error request).2.logs.map (fun rec => (rec.level, rec.event)) =
        [(cls.logLevel, cls.logEvent), ("warn", "failed-root-error-boundary")] := by
  unfold errorHandler errorHandlerCore errorHandlerRespond
  rw [hb, hr]
  simp only [hcls, ha, hroot, hfail]
  simp

/-- C5 counterexample: the warning event the code logs on fallback
failure is failed-root-error-boundary, not failed-fallback-render as
the claim states. -/
theorem errorHandler_fallback_failure_event_is_not_claimed :
    (errorHandler envFallbackFail errNotFound reqPage).2.logs.map LogRecord.event =
      ["not-found-error", "failed-root-error-boundary"]
    ∧ "failed-fallback-render" ∉
        (errorHandler envFallbackFail errNotFound reqPage).2.logs.map LogRecord.event := by
  constructor
  · rfl
  · intro h
    simp [show (errorHandler envFallbackFail errNotFound reqPage).2.logs.map LogRecord.event =
      ["not-found-error", "failed-root-error-boundary"] from rfl] at h

/-- C5 witness: a not-found error with a resolved boundary whose stats
fetch fails. -/
theorem errorHandler_fallback_failure_logs_and_rethrows_witness :
    (errorHandler envFallbackFail errNotFound reqPage).1 = Outcome.thrown ThrownError.original
    ∧ (errorHandler envFallbackFail errNotFound reqPage).2.logs.map (fun rec => (rec.level, rec.event)) =
        [(("info" : String), ("not-found-error" : String)), ("warn", "failed-root-error-boundary")] :=
  errorHandler_fallback_failure_logs_and_rethrows envFallbackFail errNotFound reqPage
    ⟨404, "info", "not-found-error", notFoundMessage⟩ 0 "stats fetch failed"
    (by decide) rfl rfl (by decide) rfl rfl

/-
  C6
-/

/-- C6 (amended): a generic (untagged) error whose statusCode is in
[400, 500) and whose code is defined classifies at level info with
event fastify-error-4xx (the code's actual event name; the claimed
name generic-error-4xx does not occur; when code is undefined the
cascade instead throws, see C4). -/
theorem classify_generic_4xx_level_event (e : CaughtError) (sc : Int) (c : String)
    (hn : e.notFoundTag = false) (hh : e.httpTag = false)
    (hsc : e.statusCode = some sc) (h4 : 400 ≤ sc) (h5 : sc < 500) (hc : e.code = some c) :
    (classify e).toOption.map (fun cls => (cls.logLevel, cls.logEvent)) =
      some ("info", "fastify-error-4xx") := by
  have h500 : jsGe e.statusCode 500 = false := by
    rw [hsc]
    simp only [jsGe, decide_eq_false_iff_not]
    omega
  have h400 : jsGe e.statusCode 400 = true := by
    rw [hsc]
    simp only [jsGe, decide_eq_true_eq]
    omega
  unfold classify
  rw [hn, hh, h500, h400, hc]
  simp [Except.toOption]

/-- C6 counterexample: for a generic 404 error the classification
event is fastify-error-4xx, not generic-error-4xx as the claim
states. -/
theorem classify_generic_404_event_name :
    (classify errFastify404).toOption.map Classification.logEvent = some "fastify-error-4xx"
    ∧ ("fastify-error-4xx" : String) ≠ "generic-error-4xx" :=
  ⟨rfl, by decide⟩

/-- C6 witness: statusCode 404 with a defined code. -/
theorem classify_generic_4xx_level_event_witness :
    (classify errFastify404).toOption.map (fun cls => (cls.logLevel, cls.logEvent)) =
      some ("info", "fastify-error-4xx") :=
  classify_generic_4xx_level_event errFastify404 404 "FST_ERR_NOT_FOUND"
    rfl rfl rfl (by norm_num) (by norm_num) rfl

/-
  C7
-/

/-- C7 (amended): for a domain http-tagged (non-not-found) error the
classified httpStatus is the error's declared status or 500 by
default; the classification is level error with event
send-server-error exactly when the declared status is at least 500
(for example 503): whenever the declared status is absent or below
500 (in JS `undefined >= 500` is false) the level is info with event
http-error - even in the default-500 case. -/
theorem classify_http_tagged_status_and_severity (e : CaughtError)
    (hn : e.notFoundTag = false) (hh : e.httpTag = true) :
    (classify e).toOption.map Classification.httpStatus = some (jsOr e.httpStatus 500)
    ∧ (jsGe e.httpStatus 500 = true →
        (classify e).toOption.map (fun cls => (cls.logLevel, cls.logEvent)) =
          some ("error", "send-server-error"))
    ∧ (jsGe e.httpStatus 500 = false →
        (classify e).toOption.map (fun cls => (cls.logLevel, cls.logEvent)) =
          some ("info", "http-error")) := by
  unfold classify
  simp only [hn, hh, Bool.false_eq_true, if_false, if_true]
  refine ⟨?_, ?_, ?_⟩
  · split <;> simp [Except.toOption]
  · intro hge
    rw [hge]
    simp [Except.toOption]
  · intro hfalse
    rw [hfalse]
    simp [Except.toOption]

/-- C7 counterexample: an http-tagged error with no declared status
has classified httpStatus 500 - which is at least 500 - yet it is
classified at level info with event http-error, not level error with
send-server-error as the claim requires for every classified status
of at least 500. -/
theorem classify_http_default_500_logged_info :
    (classify errHttpNoStatus).toOption.map
        (fun cls => (cls.httpStatus, cls.logLevel, cls.logEvent)) =
      some (500, "info", "http-error")
    ∧ (500 : Int) ≥ 500 :=
  ⟨rfl, by norm_num⟩

/-- C7 witness: declared status 503 yields level error with event
send-server-error, while declared status 404 yields info with
http-error. -/
theorem classify_http_tagged_status_and_severity_witness :
    (classify errHttp503).toOption.map Classification.httpStatus = some (jsOr errHttp503.httpStatus 500)
    ∧ (classify errHttp503).toOption.map (fun cls => (cls.logLevel, cls.logEvent)) =
        some ("error", "send-server-error")
    ∧ (classify errHttp404).toOption.map (fun cls => (cls.logLevel, cls.logEvent)) =
        some ("info", "http-error") :=
  ⟨(classify_http_tagged_status_and_severity errHttp503 rfl rfl).1,
   (classify_http_tagged_status_and_severity errHttp503 rfl rfl).2.1 (by decide),
   (classify_http_tagged_status_and_severity errHttp404 rfl rfl).2.2 (by decide)⟩

/-
  C8
-/

/-- C8: when no before-hook short-circuits, a redirect-tagged error is
logged once at info with event redirect-found-error, the no-cache
header is set, an HTTP redirect to the error's nextUrl with its
declared status (default 307) is issued, and the handler terminates
with no classification log, no status assignment, no after-hooks and
no fallback attempt. -/
theorem errorHandler_redirect_short_circuit (env : Env) (error : CaughtError) (request : Request)
    (hb : isNil (runHandlers env.beforeError).1 = true)
    (hr : error.redirectTag = true) :
    (errorHandler env error request).1 = Outcome.redirect (jsOr error.httpStatus 307) error.nextUrl
    ∧ (errorHandler env error request).2.logs =
        [⟨"info", "redirect-found-error", redirectMessage error⟩]
    ∧ (errorHandler env error request).2.headers =
        [("cache-control", "no-store, no-cache, must-revalidate")]
    ∧ (errorHandler env error request).2.status = none
    ∧ (errorHandler env error request).2.afterInvoked = 0
    ∧ (errorHandler env error request).2.fallbackAttempted = false := by
  unfold errorHandler errorHandlerCore
  rw [hb, hr]
  simp

/-- C8 witness: a redirect error with no declared status redirects to
/login with status 307. -/
theorem errorHandler_redirect_short_circuit_witness :
    (errorHandler envPlain errRedirect reqPage).1 =
      Outcome.redirect (jsOr errRedirect.httpStatus 307) errRedirect.nextUrl
    ∧ (errorHandler envPlain errRedirect reqPage).2.logs =
        [⟨"info", "redirect-found-error", redirectMessage errRedirect⟩]
    ∧ (errorHandler envPlain errRedirect reqPage).2.headers =
        [("cache-control", "no-store, no-cache, must-revalidate")]
    ∧ (errorHandler envPlain errRedirect reqPage).2.status = none
    ∧ (errorHandler envPlain errRedirect reqPage).2.afterInvoked = 0
    ∧ (errorHandler envPlain errRedirect reqPage).2.fallbackAttempted = false :=
  errorHandler_redirect_short_circuit envPlain errRedirect reqPage (by decide) rfl

/-
  C9
-/

/-- C9 (amended): whenever a before-hook returns a truthy value (every
earlier hook's result falsy), the handler returns that value unchanged
and no classification, logging, after-hook or fallback activity occurs
in that invocation; a falsy but defined hook result does not
short-circuit. -/
theorem errorHandler_truthy_before_hook_short_circuits (env : Env) (error : CaughtError)
    (request : Request) (pre : List JsVal) (v : JsVal) (post : List JsVal)
    (henv : env.beforeError = some (pre ++ v :: post))
    (hpre : ∀ x ∈ pre, truthy x = false) (hv : truthy v = true) :
    (errorHandler env error request).1 = Outcome.hookResult v
    ∧ (errorHandler env error request).2 =
        { logs := [], headers := [], status := none,
          beforeInvoked := pre.length + 1, afterInvoked := 0, fallbackAttempted := false } := by
  have hrun : runHandlers env.beforeError = (v, pre.length + 1) := by
    rw [henv]
    exact runHandlersList_first_truthy pre v post hpre hv
  have hnil : isNil v = false := truthy_not_nil v hv
  unfold errorHandler
  rw [hrun]
  simp [hnil]

/-- C9 counterexample: a before-hook returns 0 - a defined, non-nil
value - yet the handler does not return it: classification and
logging still run and the original error is rethrown. -/
theorem errorHandler_defined_falsy_before_hook_ignored :
    isNil (JsVal.num 0) = false
    ∧ (errorHandler envBeforeZero errNotFound reqPage).1 = Outcome.thrown ThrownError.original
    ∧ (errorHandler envBeforeZero errNotFound reqPage).2.logs.map LogRecord.event =
        ["not-found-error"] :=
  ⟨rfl, rfl, rfl⟩

/-- C9 witness: the second before-hook returns the truthy "hi" after a
falsy 0; the handler returns "hi" with an empty trace. -/
theorem errorHandler_truthy_before_hook_short_circuits_witness :
    (errorHandler envBeforeTruthy errNotFound reqPage).1 = Outcome.hookResult (JsVal.str "hi")
    ∧ (errorHandler envBeforeTruthy errNotFound reqPage).2 =
        { logs := [], headers := [], status := none,
          beforeInvoked := [JsVal.num 0].length + 1, afterInvoked := 0,
          fallbackAttempted := false } :=
  errorHandler_truthy_before_hook_short_circuits envBeforeTruthy errNotFound reqPage
    [JsVal.num 0] (JsVal.str "hi") [] rfl (by decide) (by decide)

/-
  C10
-/

/-- C10 (amended): when a fallback component is configured and every
step of the fallback render succeeds, the response status equals the
classified httpStatus (not necessarily 200) and the Content-Length
header is the decimal UTF-8 byte length of the returned body,
unconditionally; and provided the rendered markup contains the
closing head tag at which the script injection happens and the
injected replacement text is free of the dollar character (which
JS replace would rewrite through its dollar-pattern substitution),
the body contains the serialized error message and the serialized
request URL. -/
theorem errorHandler_fallback_success_response (env : Env) (error : CaughtError)
    (request : Request) (cls : Classification) (comp stats : Nat)
    (tags : String × String) (markup : String)
    (hb : isNil (runHandlers env.beforeError).1 = true)
    (hr : error.redirectTag = false)
    (hcls : classify error = Except.ok cls)
    (ha : isNil (runHandlers env.afterError).1 = true)
    (hroot : env.rootErrorBoundary = some comp)
    (hstats : env.fetchWebpackStats = Except.ok stats)
    (htags : env.extractTags stats = Except.ok tags)
    (hrender : env.renderToString comp ⟨cls.httpStatus, error.message, error.stack⟩
        (env.parse request.url) = Except.ok markup) :
    (errorHandler env error request).1 =
      Outcome.body (fallbackBody env cls.httpStatus error request.url tags markup)
    ∧ (errorHandler env error request).2.status = some cls.httpStatus
    ∧ ("Content-Length",
        toString (fallbackBody env cls.httpStatus error request.url tags markup).utf8ByteSize)
        ∈ (errorHandler env error request).2.headers
    ∧ (strContains markup "</head>" →
        ('$' : Char) ∉
          (headInjection
            (injectionScript env (env.parse request.url)
              ⟨cls.httpStatus, error.message, error.stack⟩)
            tags.1 tags.2).data →
        strContains (fallbackBody env cls.httpStatus error request.url tags markup)
          (env.safeStringifyStr error.message)
        ∧ strContains (fallbackBody env cls.httpStatus error request.url tags markup)
          (env.safeStringifyUrl (env.parse request.url))) := by
  have hfb : attemptFallback env comp cls.httpStatus error request.url =
      Except.ok (fallbackBody env cls.httpStatus error request.url tags markup) := by
    unfold attemptFallback
    simp only [bind, Except.bind, hstats, htags, hrender]
  unfold errorHandler errorHandlerCore errorHandlerRespond
  rw [hb, hr]
  simp only [hcls, ha, hroot, hfb]
  refine ⟨by simp, by simp, by simp, ?_⟩
  intro hhead hdollar
  constructor
  · exact infix_fallbackBody env cls.httpStatus error request.url tags markup
      (env.safeStringifyStr error.message) hhead hdollar
      (message_infix_injectionScript env (env.parse request.url)
        ⟨cls.httpStatus, error.message, error.stack⟩)
  · exact infix_fallbackBody env cls.httpStatus error request.url tags markup
      (env.safeStringifyUrl (env.parse request.url)) hhead hdollar
      (url_infix_injectionScript env (env.parse request.url)
        ⟨cls.httpStatus, error.message, error.stack⟩)

/-- C10 counterexample: a fallback component whose rendered markup has
no closing head tag renders successfully, but the body is the
unmodified markup and contains neither the error message nor the
URL - the injection never happened. -/
theorem errorHandler_fallback_success_without_head_tag :
    (errorHandler { envFallbackOk with
        renderToString := fun _ _ _ => Except.ok "<div></div>" } errNotFound reqPage).1 =
      Outcome.body "<div></div>"
    ∧ ¬ strContains "<div></div>" "nf"
    ∧ ¬ strContains "<div></div>" "/page" := by
  refine ⟨rfl, by decide, by decide⟩

/-- C10 witness: a successful fallback render over markup with a head
tag and a dollar-free injection, for a 404 not-found classification. -/
theorem errorHandler_fallback_success_response_witness :
    (errorHandler envFallbackOk errNotFound reqPage).1 =
      Outcome.body (fallbackBody envFallbackOk 404 errNotFound "/page" ("", "")
        "<html><head></head><body>x</body></html>")
    ∧ (errorHandler envFallbackOk errNotFound reqPage).2.status = some 404
    ∧ ("Content-Length",
        toString (fallbackBody envFallbackOk 404 errNotFound "/page" ("", "")
          "<html><head></head><body>x</body></html>").utf8ByteSize)
        ∈ (errorHandler envFallbackOk errNotFound reqPage).2.headers
    ∧ strContains (fallbackBody envFallbackOk 404 errNotFound "/page" ("", "")
        "<html><head></head><body>x</body></html>") (envFallbackOk.safeStringifyStr "nf")
    ∧ strContains (fallbackBody envFallbackOk 404 errNotFound "/page" ("", "")
        "<html><head></head><body>x</body></html>")
        (envFallbackOk.safeStringifyUrl (envFallbackOk.parse "/page")) := by
  have h := errorHandler_fallback_success_response envFallbackOk errNotFound reqPage
    ⟨404, "info", "not-found-error", notFoundMessage⟩ 0 0 ("", "")
    "<html><head></head><body>x</body></html>"
    (by decide) rfl rfl (by decide) rfl rfl rfl rfl
  have hc := h.2.2.2 (by decide) (by decide)
  exact ⟨h.1, h.2.1, h.2.2.1, hc.1, hc.2⟩

end Tramvai
